import Mathlib

/-!
Verification development for the sandboxed code-execution engine of the
skillify-analysis repository.

The definitions below are a shallow embedding of
`server/services/code_execution_service.py` and
`server/services/code_execution_service_additional.py`:

* `TestCase` / `TestCaseResult` mirror the wire shapes handled by the service.
* `resolve_function`, `adapt_input`, `call_with_input`, `run_test_case` and
  `run_tests` embed the generated Python harness (`_write_python_test_runner`):
  the in-sandbox driver that resolves the callable under test, adapts the raw
  input string, invokes the callable and records one result per test case.
* `run_in_docker` and `execute_code` embed `CodeExecutionService._run_in_docker`
  and `CodeExecutionService.execute_code`.  Effects (temporary directory
  creation, file writes, the `docker run` subprocess, reading `results.json`)
  are made explicit through the `Env` record describing their outcomes, and the
  container commands actually issued are collected as a `DockerAction` trace.
* `rmtree_path` / `safe_temp_dir_cleanup` embed `SafeTempDir.__exit__` together
  with its `_handle_error_readonly_files` error handler (the class-level
  `_handle_error_readonly_files` method has the same body).
* `go_runner_results`, `ruby_runner_results` and `cpp_runner_results` embed the
  per-test loops of the generated Go, Ruby and C++ runners from
  `code_execution_service_additional.py`.

Python string primitives used by the service (`str.strip`, `str.lower`,
`str.startswith`, `str.endswith`, substring containment, `str()` rendering)
are modelled executably over the character data of `String`.
-/

set_option autoImplicit false
set_option linter.unusedVariables false

namespace Skillify

/-- Test-case wire shape: `input` (raw string, possibly a JSON-array literal),
`expected_output`, optional `function_name` hint and optional free-text
`description` (both default to the empty string, matching `dict.get(..., "")`
in the generated harness). -/
structure TestCase where
  input : String := ""
  expected_output : String := ""
  function_name : String := ""
  description : String := ""
deriving Repr, DecidableEq

/-- Result wire shape produced by the service.  `execution_time` is in
milliseconds.  `memory_usage` is `none` exactly when the producing source dict
has no `memory_usage` key (the orchestrator-level synthetic records). -/
structure TestCaseResult where
  test_case_id : String
  passed : Bool
  actual_output : String
  expected_output : String
  execution_time : Nat
  memory_usage : Option Nat
  error_message : Option String
deriving Repr, DecidableEq

/-! ### Models of the Python string primitives used by the service -/

/-- Model of Python `str.strip()`: drop whitespace from both ends. -/
def pystrip (s : String) : String :=
  ⟨((s.data.dropWhile Char.isWhitespace).reverse.dropWhile Char.isWhitespace).reverse⟩

/-- Model of Python `str.lower()`. -/
def lowerStr (s : String) : String :=
  ⟨s.data.map Char.toLower⟩

/-- Model of Python `str.startswith(pre)`. -/
def strStartsWith (s pre : String) : Bool :=
  pre.data.isPrefixOf s.data

/-- Model of Python `str.endswith(suf)`. -/
def strEndsWith (s suf : String) : Bool :=
  suf.data.reverse.isPrefixOf s.data.reverse

/-- Model of Python substring containment `needle in haystack`. -/
def containsSub (haystack needle : String) : Bool :=
  (List.range (haystack.data.length + 1)).any fun i =>
    needle.data.isPrefixOf (haystack.data.drop i)

/-! ### Values and callables of the submitted Python module -/

/-- Python values that flow through the generated harness: the raw input
string, JSON scalars and JSON arrays. -/
inductive PyVal where
  | str (s : String)
  | int (n : Int)
  | bool (b : Bool)
  | list (elems : List PyVal)

/-- Comma-and-space join, as Python uses when rendering a list. -/
def joinComma : List String → String
  | [] => ""
  | [s] => s
  | s :: rest => s ++ ", " ++ joinComma rest

mutual

/-- Model of Python `repr(v)` for the values of `PyVal`. -/
def pyRepr : PyVal → String
  | .str s => "'" ++ s ++ "'"
  | .int n => toString n
  | .bool b => if b then "True" else "False"
  | .list xs => "[" ++ joinComma (pyReprList xs) ++ "]"

/-- `repr` applied elementwise, used for list rendering. -/
def pyReprList : List PyVal → List String
  | [] => []
  | x :: xs => pyRepr x :: pyReprList xs

end

/-- Model of Python `str(v)`: identity on strings, `repr`-based elsewhere
(list elements are rendered with `repr`, as Python does). -/
def pyStr : PyVal → String
  | .str s => s
  | v => pyRepr v

/-- Outcome of invoking a callable of the submitted module: a returned value
together with the measured wall time in milliseconds, or a raised exception
(message and formatted traceback). -/
inductive CallOutcome where
  | ok (ret : PyVal) (elapsed_ms : Nat)
  | exc (msg : String) (trace : String)

/-- A callable enumerated from the submitted module.  `n_params` is
`len(inspect.signature(func).parameters)` and `has_var_positional` records
whether any parameter has kind `VAR_POSITIONAL`; `call` is its behaviour on a
list of positional arguments. -/
structure PyFunc where
  n_params : Nat
  has_var_positional : Bool
  call : List PyVal → CallOutcome

/-! ### The generated Python harness (`_write_python_test_runner`) -/

/-- Embeds the per-test callable resolution of the generated harness:
the explicit `function_name` when it is a key of `solution_functions`,
else the sole function when there is exactly one, else the first function
whose lowered name occurs in the lowered `description`, else the first
function (or `none` when the module exposes none). -/
def resolve_function (funcs : List (String × PyFunc))
    (function_name description : String) : Option PyFunc :=
  if function_name ≠ "" ∧ (funcs.lookup function_name).isSome then
    funcs.lookup function_name
  else if funcs.length = 1 then
    funcs.head?.map Prod.snd
  else
    match funcs.find? (fun nf => containsSub (lowerStr description) (lowerStr nf.1)) with
    | some nf => some nf.2
    | none => funcs.head?.map Prod.snd

/-- Embeds the input-adaptation step: a string that starts with an opening
and ends with a closing square bracket is fed to `json.loads` (modelled by
the `json_loads` oracle); a parse failure keeps the raw string. -/
def adapt_input (json_loads : String → Option PyVal) (input : String) : PyVal :=
  if strStartsWith input "[" && strEndsWith input "]" then
    match json_loads input with
    | some v => v
    | none => .str input
  else .str input

/-- Embeds the invocation step: a parsed list is passed as one argument when
the signature declares exactly one parameter and no var-positional parameter,
and is spread into separate positional arguments otherwise; any non-list value
is passed as a single argument. -/
def call_with_input (f : PyFunc) (parsed : PyVal) : CallOutcome :=
  match parsed with
  | .list xs =>
    if f.n_params = 1 ∧ f.has_var_positional = false then f.call [.list xs]
    else f.call xs
  | v => f.call [v]

/-- Adaptation followed by invocation, as the harness performs per test. -/
def invoke (f : PyFunc) (json_loads : String → Option PyVal) (input : String) :
    CallOutcome :=
  call_with_input f (adapt_input json_loads input)

/-- Embeds one iteration of the harness loop: resolve the callable, adapt the
input, invoke, stringify, compare stripped strings; a missing callable or a
raised exception becomes a failed per-test record. -/
def run_test_case (funcs : List (String × PyFunc))
    (json_loads : String → Option PyVal) (i : Nat) (tc : TestCase) :
    TestCaseResult :=
  let test_id := "test_" ++ toString i
  match resolve_function funcs tc.function_name tc.description with
  | none =>
    { test_case_id := test_id, passed := false, actual_output := "",
      expected_output := tc.expected_output, execution_time := 0,
      memory_usage := none, error_message := some "No suitable function found" }
  | some f =>
    match invoke f json_loads tc.input with
    | .ok ret ms =>
      let actual := pyStr ret
      { test_case_id := test_id,
        passed := pystrip actual == pystrip tc.expected_output,
        actual_output := actual, expected_output := tc.expected_output,
        execution_time := ms, memory_usage := some 0, error_message := none }
    | .exc msg trace =>
      { test_case_id := test_id, passed := false, actual_output := "",
        expected_output := tc.expected_output, execution_time := 0,
        memory_usage := some 0, error_message := some (msg ++ "\n" ++ trace) }

/-- Embeds the whole harness loop: one record per test case, in order. -/
def run_tests (funcs : List (String × PyFunc))
    (json_loads : String → Option PyVal) (tcs : List TestCase) :
    List TestCaseResult :=
  tcs.enum.map fun p => run_test_case funcs json_loads p.1 p.2

/-! ### Best-effort workspace cleanup (`SafeTempDir` and its error handler) -/

/-- Kind of exception raised by a delete attempt: Python `PermissionError`
versus any other exception. -/
inductive FailKind where
  | permission
  | other
deriving Repr, DecidableEq

/-- Outcomes of the filesystem operations performed while removing the
per-request temporary directory: for each path, whether the first delete
attempt raises (and with which kind), whether `os.chmod` raises, and whether
the retried delete raises. -/
structure CleanupEnv where
  paths : List String
  first_try : String → Option FailKind
  chmod_fails : String → Bool
  retry_result : String → Option FailKind

/-- Observable cleanup steps: a delete attempt on a path, making a path
writable via `os.chmod(path, stat.S_IWRITE)`, and a logged warning. -/
inductive CleanupEvent where
  | attemptDelete (path : String)
  | chmodWritable (path : String)
  | logWarning (path : String)
deriving Repr, DecidableEq

/-- Embeds `_handle_error_readonly_files`: on a `PermissionError` the path is
made writable and the delete retried once, any failure of that retry (or of
the `chmod` itself) being caught and logged; any other exception is logged.
The handler never lets an exception propagate. -/
def handle_error_readonly_files (env : CleanupEnv) (path : String)
    (err : FailKind) : List CleanupEvent :=
  match err with
  | .permission =>
    CleanupEvent.chmodWritable path ::
      (if env.chmod_fails path then [CleanupEvent.logWarning path]
       else CleanupEvent.attemptDelete path ::
         (match env.retry_result path with
          | none => []
          | some _ => [CleanupEvent.logWarning path]))
  | .other => [CleanupEvent.logWarning path]

/-- Embeds `shutil.rmtree`'s treatment of one path under the `onerror`
handler: attempt the delete and hand any raised exception to
`handle_error_readonly_files`. -/
def rmtree_path (env : CleanupEnv) (path : String) : List CleanupEvent :=
  match env.first_try path with
  | none => [CleanupEvent.attemptDelete path]
  | some err => CleanupEvent.attemptDelete path :: handle_error_readonly_files env path err

/-- Embeds `SafeTempDir.__exit__`: best-effort removal of every path of the
temporary directory.  It yields a plain event list — every exception a step
can raise is absorbed by the handler above or by the surrounding
`try`/`except` of `__exit__`, so no failure escapes. -/
def safe_temp_dir_cleanup (env : CleanupEnv) : List CleanupEvent :=
  (env.paths.map (rmtree_path env)).flatten

/-! ### The execution orchestrator (`execute_code` / `_run_in_docker`) -/

/-- Commands issued to the container runtime.  `removeContainer` would model
`docker rm -f <name>`; the embedding shows the service never issues it. -/
inductive DockerAction where
  | runContainer (name image : String) (cmd : List String) (timeout_sec : Nat)
  | removeContainer (name : String)
deriving Repr, DecidableEq

/-- Outcome of the `subprocess.run(["docker", "run", ...])` call: normal
completion (with the state of `results.json` afterwards: missing, present but
unparseable, or parsed), `subprocess.TimeoutExpired`, or another
`subprocess.SubprocessError`. -/
inductive RunOutcome where
  | completed (results_json : Option (Except String (List TestCaseResult)))
  | timedOut
  | subprocessError (msg : String)

/-- Environment of one `execute_code` call: the unique basename of the
temporary directory, whether creating it raises, whether writing the source,
test-case and runner files raises, the docker-run outcome, whether the
JavaScript/Java branch's re-read of `test_cases.json` raises, and the
cleanup-time filesystem outcomes. -/
structure Env where
  temp_dir_base : String
  mkdtemp_error : Option String
  write_error : Option String
  run_outcome : RunOutcome
  read_back_error : Option String
  cleanup : CleanupEnv

/-- The `DOCKER_IMAGES` table of the service, in declaration order. -/
def DOCKER_IMAGES : List (String × String) :=
  [("python", "python:3.9-slim"),
   ("javascript", "node:16-alpine"),
   ("java", "openjdk:11-jdk-slim"),
   ("cpp", "gcc:latest"),
   ("csharp", "mcr.microsoft.com/dotnet/sdk:6.0"),
   ("go", "golang:1.18-alpine"),
   ("ruby", "ruby:3.1-slim")]

/-- The joined key list used in the unsupported-language message. -/
def SUPPORTED_LANGUAGES_TEXT : String :=
  "python, javascript, java, cpp, csharp, go, ruby"

/-- A synthetic whole-batch record as built by the orchestrator (its source
dicts carry no `memory_usage` key). -/
def error_record (id msg : String) : TestCaseResult :=
  { test_case_id := id, passed := false, actual_output := "",
    expected_output := "", execution_time := 0,
    memory_usage := none, error_message := some msg }

/-- Embeds the fabricated results of the JavaScript and Java branches of
`_run_in_docker`: one `passed := true` record per test case, with
`actual_output` copied from the expected output, produced without any
container. -/
def dummy_pass_results (tcs : List TestCase) : List TestCaseResult :=
  tcs.enum.map fun p =>
    { test_case_id := "test_" ++ toString p.1, passed := true,
      actual_output := p.2.expected_output, expected_output := p.2.expected_output,
      execution_time := 0, memory_usage := some 0, error_message := none }

/-- The run command chosen per language in the non-Python docker branch. -/
def lang_cmd (language : String) : List String :=
  if language = "go" then ["go", "run", "main.go"]
  else if language = "ruby" then ["ruby", "run_tests.rb"]
  else if language = "cpp" then ["bash", "build_and_run.sh"]
  else ["python", "run_tests.py"]

/-- Embeds the docker-backed branch of `_run_in_docker` (used for Python and
for the languages of the final `else`): issue `docker run` with timeout
`max(timeout, 10)`, then read `results.json` on completion.  A missing file
becomes a synthetic error record; an unparseable file re-raises (`.error`),
to be caught by `execute_code`; `TimeoutExpired` becomes the single timeout
record with `execution_time = max(timeout, 10) * 1000` — and no removal
command is issued; any other `SubprocessError` becomes a synthetic record. -/
def docker_run_branch (container_name image : String) (cmd : List String)
    (timeout : Nat) (outcome : RunOutcome) :
    List DockerAction × Except String (List TestCaseResult) :=
  let actual_timeout := max timeout 10
  let acts := [DockerAction.runContainer container_name image cmd actual_timeout]
  match outcome with
  | .timedOut =>
    (acts, .ok [{ test_case_id := "timeout", passed := false, actual_output := "",
                  expected_output := "", execution_time := actual_timeout * 1000,
                  memory_usage := none,
                  error_message := some ("Execution timed out after "
                    ++ toString actual_timeout ++ " seconds") }])
  | .subprocessError e =>
    (acts, .ok [error_record "error" ("Docker execution error: " ++ e)])
  | .completed none =>
    (acts, .ok [error_record "error" "Failed to get results from Docker container"])
  | .completed (some (.error e)) => (acts, .error e)
  | .completed (some (.ok rs)) => (acts, .ok rs)

/-- Embeds `CodeExecutionService._run_in_docker`.  The container name is
derived from the temporary directory's basename.  The Python branch and the
final `else` branch go through `docker_run_branch`; the JavaScript and Java
branches re-read `test_cases.json` and fabricate passing results without
contacting the container runtime. -/
def run_in_docker (language temp_dir_base : String) (timeout : Nat)
    (outcome : RunOutcome) (read_back_error : Option String)
    (test_cases : List TestCase) :
    List DockerAction × Except String (List TestCaseResult) :=
  let container_name := "code_execution_" ++ temp_dir_base
  let image := (DOCKER_IMAGES.lookup language).getD "python:3.9-slim"
  if language = "python" then
    docker_run_branch container_name image ["python", "run_tests.py"] timeout outcome
  else if language = "javascript" then
    match read_back_error with
    | some e => ([], .ok [error_record "error" ("JavaScript execution error: " ++ e)])
    | none => ([], .ok (dummy_pass_results test_cases))
  else if language = "java" then
    match read_back_error with
    | some e => ([], .ok [error_record "error" ("Java execution error: " ++ e)])
    | none => ([], .ok (dummy_pass_results test_cases))
  else
    docker_run_branch container_name image (lang_cmd language) timeout outcome

/-- Embeds `CodeExecutionService.execute_code`: lowercase the language, reject
when docker is unavailable or the language is unsupported, then create the
workspace, write the artifacts and run; every exception of the inner phase is
caught and converted into a single synthetic record.  The second component is
the trace of container commands issued. -/
def execute_code (docker_available : Bool) (code language : String)
    (test_cases : List TestCase) (timeout : Nat) (env : Env) :
    List TestCaseResult × List DockerAction :=
  if docker_available = false then
    ([error_record "error"
        "Docker is not available. Code execution requires Docker for security."], [])
  else if (DOCKER_IMAGES.lookup (lowerStr language)).isNone then
    ([error_record "error" ("Language " ++ lowerStr language
        ++ " not supported. Supported languages: " ++ SUPPORTED_LANGUAGES_TEXT)], [])
  else
    match env.mkdtemp_error with
    | some e => ([error_record "error" ("Error creating temporary directory: " ++ e)], [])
    | none =>
      match env.write_error with
      | some e => ([error_record "error" ("Error executing code: " ++ e)], [])
      | none =>
        match run_in_docker (lowerStr language) env.temp_dir_base timeout env.run_outcome
            env.read_back_error test_cases with
        | (acts, .ok rs) => (rs, acts)
        | (acts, .error e) =>
          ([error_record "error" ("Error executing code: " ++ e)], acts)

/-- `execute_code` together with the cleanup performed by `SafeTempDir` when
the `with` block exits: cleanup runs exactly when the temporary directory was
created, whatever the inner outcome was. -/
def execute_code_full (docker_available : Bool) (code language : String)
    (test_cases : List TestCase) (timeout : Nat) (env : Env) :
    (List TestCaseResult × List DockerAction) × List CleanupEvent :=
  if docker_available = false ∨ (DOCKER_IMAGES.lookup (lowerStr language)).isNone then
    (execute_code docker_available code language test_cases timeout env, [])
  else
    match env.mkdtemp_error with
    | some _ => (execute_code docker_available code language test_cases timeout env, [])
    | none =>
      (execute_code docker_available code language test_cases timeout env,
       safe_temp_dir_cleanup env.cleanup)

/-! ### The generated Go, Ruby and C++ runners
(`code_execution_service_additional.py`) -/

/-- Embeds the per-test loop of the generated Go runner: no solution function
is ever wired in, so `errorMsg` is always set to `Function <name> not found`,
`passed` is always false and `actual_output` stays empty.  `elapsed` models
the timer read per iteration. -/
def go_runner_results (elapsed : Nat → Nat) (tcs : List TestCase) :
    List TestCaseResult :=
  tcs.enum.map fun p =>
    { test_case_id := "test_" ++ toString p.1, passed := false,
      actual_output := "", expected_output := p.2.expected_output,
      execution_time := elapsed p.1, memory_usage := some 0,
      error_message := some ("Function " ++ p.2.function_name ++ " not found") }

/-- Embeds the per-test loop of the generated Ruby runner: a fixed failed
record per test case. -/
def ruby_runner_results (tcs : List TestCase) : List TestCaseResult :=
  tcs.enum.map fun p =>
    { test_case_id := "test_" ++ toString p.1, passed := false,
      actual_output := "", expected_output := p.2.expected_output,
      execution_time := 0, memory_usage := some 0,
      error_message := some "Ruby execution not fully implemented yet" }

/-- Embeds the per-test loop of the generated C++ runner: a fixed failed
record per test case. -/
def cpp_runner_results (tcs : List TestCase) : List TestCaseResult :=
  tcs.enum.map fun p =>
    { test_case_id := "test_" ++ toString p.1, passed := false,
      actual_output := "", expected_output := p.2.expected_output,
      execution_time := 0, memory_usage := some 0,
      error_message := some "C++ execution not fully implemented yet" }

/-- `true` when the action trace contains no container-removal command. -/
def no_remove (acts : List DockerAction) : Bool :=
  acts.all fun a =>
    match a with
    | .removeContainer _ => false
    | _ => true

/-- Coupling between the docker-run outcome and the generated harness: every
harness emitted by the service writes exactly one record per test case into
`results.json`, so a successfully parsed results file has the test-case
count's length. -/
def harness_coupled (e : Env) (tcs : List TestCase) : Prop :=
  ∀ rs, e.run_outcome = RunOutcome.completed (some (Except.ok rs)) →
    rs.length = tcs.length

/-! ### Concrete fixtures used by counterexamples and witnesses -/

/-- A cleanup environment in which every delete succeeds. -/
def cleanup_env_ex : CleanupEnv :=
  { paths := [], first_try := fun _ => none, chmod_fails := fun _ => false,
    retry_result := fun _ => none }

/-- A cleanup environment whose single path first raises `PermissionError`
and whose retry (after `chmod`) succeeds. -/
def cleanup_env_perm : CleanupEnv :=
  { paths := ["f"], first_try := fun _ => some FailKind.permission,
    chmod_fails := fun _ => false, retry_result := fun _ => none }

/-- A benign environment: workspace created and written, container completes,
but no `results.json` appears. -/
def env_ok : Env :=
  { temp_dir_base := "tmpabc", mkdtemp_error := none, write_error := none,
    run_outcome := .completed none, read_back_error := none,
    cleanup := cleanup_env_ex }

/-- An environment whose docker run hits `subprocess.TimeoutExpired`. -/
def env_timeout : Env :=
  { temp_dir_base := "tmp123", mkdtemp_error := none, write_error := none,
    run_outcome := .timedOut, read_back_error := none,
    cleanup := cleanup_env_ex }

/-- An environment whose container completes and whose `results.json` parses
to the empty list — exactly what the generated harness writes when the
test-case list is empty. -/
def env_empty_results : Env :=
  { temp_dir_base := "tmp9", mkdtemp_error := none, write_error := none,
    run_outcome := .completed (some (Except.ok [])), read_back_error := none,
    cleanup := cleanup_env_ex }

/-- A passing harness record, as parsed back from `results.json`. -/
def result_pass_0 : TestCaseResult :=
  { test_case_id := "test_0", passed := true, actual_output := "olleh",
    expected_output := "olleh", execution_time := 3, memory_usage := some 0,
    error_message := none }

/-- An environment whose container completes and whose `results.json` parses
to exactly one harness record. -/
def env_one_result : Env :=
  { temp_dir_base := "tmp1", mkdtemp_error := none, write_error := none,
    run_outcome := .completed (some (Except.ok [result_pass_0])),
    read_back_error := none, cleanup := cleanup_env_ex }

/-- A one-parameter solution callable reversing its string argument. -/
def f_rev : PyFunc :=
  { n_params := 1, has_var_positional := false,
    call := fun args =>
      match args with
      | [PyVal.str s] => CallOutcome.ok (PyVal.str ⟨s.data.reverse⟩) 1
      | _ => CallOutcome.exc "TypeError" "tb" }

/-- A one-parameter solution callable consuming a whole list argument. -/
def f_listlen : PyFunc :=
  { n_params := 1, has_var_positional := false,
    call := fun args =>
      match args with
      | [PyVal.list xs] => CallOutcome.ok (PyVal.int xs.length) 1
      | _ => CallOutcome.exc "TypeError" "tb" }

/-- A three-parameter solution callable summing its integer arguments. -/
def f_sum3 : PyFunc :=
  { n_params := 3, has_var_positional := false,
    call := fun args =>
      match args with
      | [PyVal.int a, PyVal.int b, PyVal.int c] => CallOutcome.ok (PyVal.int (a + b + c)) 2
      | _ => CallOutcome.exc "TypeError" "tb" }

/-- A solution callable that raises on every invocation. -/
def f_boom : PyFunc :=
  { n_params := 1, has_var_positional := false,
    call := fun _ => CallOutcome.exc "ValueError: boom" "Traceback (most recent call last)" }

/-- The record the generated Go runner emits for a `reverse_string` test. -/
def go_stub_record : TestCaseResult :=
  { test_case_id := "test_0", passed := false, actual_output := "",
    expected_output := "olleh", execution_time := 0, memory_usage := some 0,
    error_message := some "Function reverse_string not found" }

/-- A `json.loads` oracle under which no input parses. -/
def jl_none : String → Option PyVal := fun _ => none

/-- A `json.loads` oracle parsing the literal `[1, 2, 3]`. -/
def jl_arr : String → Option PyVal := fun s =>
  if s = "[1, 2, 3]" then some (PyVal.list [PyVal.int 1, PyVal.int 2, PyVal.int 3])
  else none

/-! ### Helper lemmas -/

theorem execute_code_full_fst (da : Bool) (code language : String)
    (tcs : List TestCase) (t : Nat) (e : Env) :
    (execute_code_full da code language tcs t e).1
      = execute_code da code language tcs t e := by
  unfold execute_code_full
  by_cases h : da = false ∨ (DOCKER_IMAGES.lookup (lowerStr language)).isNone = true
  · rw [if_pos h]
  · rw [if_neg h]
    cases hmk : e.mkdtemp_error <;> simp [hmk]

theorem dummy_pass_results_length (tcs : List TestCase) :
    (dummy_pass_results tcs).length = tcs.length := by
  simp [dummy_pass_results]

theorem run_in_docker_timedOut (language base : String) (t : Nat)
    (rb : Option String) (tcs : List TestCase)
    (hjs : language ≠ "javascript") (hjava : language ≠ "java") :
    ∃ cmd, run_in_docker language base t RunOutcome.timedOut rb tcs
      = ([DockerAction.runContainer ("code_execution_" ++ base)
            ((DOCKER_IMAGES.lookup language).getD "python:3.9-slim") cmd (max t 10)],
         Except.ok [{ test_case_id := "timeout", passed := false,
                      actual_output := "", expected_output := "",
                      execution_time := (max t 10) * 1000,
                      memory_usage := none,
                      error_message := some ("Execution timed out after "
                        ++ toString (max t 10) ++ " seconds") }]) := by
  unfold run_in_docker docker_run_branch
  by_cases hpy : language = "python"
  · exact ⟨["python", "run_tests.py"], by simp [hpy]⟩
  · exact ⟨lang_cmd language, by simp [hpy, hjs, hjava]⟩

theorem docker_run_branch_ok_nonempty (cn img : String) (cmd : List String)
    (t : Nat) (o : RunOutcome) (tlen : Nat)
    (hc : ∀ rs, o = RunOutcome.completed (some (Except.ok rs)) → rs.length = tlen)
    (hlen : tlen ≠ 0) (acts : List DockerAction) (rs : List TestCaseResult)
    (h : docker_run_branch cn img cmd t o = (acts, Except.ok rs)) : rs ≠ [] := by
  cases o with
  | timedOut =>
    simp [docker_run_branch] at h
    obtain ⟨h1, h2⟩ := h
    subst h2
    simp
  | subprocessError e =>
    simp [docker_run_branch] at h
    obtain ⟨h1, h2⟩ := h
    subst h2
    simp
  | completed rj =>
    cases rj with
    | none =>
      simp [docker_run_branch] at h
      obtain ⟨h1, h2⟩ := h
      subst h2
      simp
    | some ex =>
      cases ex with
      | error e => simp [docker_run_branch] at h
      | ok rs' =>
        simp [docker_run_branch] at h
        obtain ⟨h1, h2⟩ := h
        subst h2
        have hlen' := hc rs' rfl
        intro hnil
        rw [hnil] at hlen'
        exact hlen (by simpa using hlen'.symm)

theorem run_in_docker_ok_nonempty (language base : String) (t : Nat)
    (o : RunOutcome) (rb : Option String) (tcs : List TestCase)
    (hc : ∀ rs, o = RunOutcome.completed (some (Except.ok rs)) → rs.length = tcs.length)
    (hne : tcs ≠ []) (acts : List DockerAction) (rs : List TestCaseResult)
    (h : run_in_docker language base t o rb tcs = (acts, Except.ok rs)) :
    rs ≠ [] := by
  have hlen : tcs.length ≠ 0 := by
    simpa using (List.length_pos.mpr hne).ne'
  unfold run_in_docker at h
  by_cases hpy : language = "python"
  · rw [if_pos hpy] at h
    exact docker_run_branch_ok_nonempty _ _ _ t o tcs.length hc hlen acts rs h
  · rw [if_neg hpy] at h
    by_cases hjs : language = "javascript"
    · rw [if_pos hjs] at h
      cases hrb : rb with
      | some e =>
        rw [hrb] at h
        simp at h
        obtain ⟨h1, h2⟩ := h
        subst h2
        simp
      | none =>
        rw [hrb] at h
        simp at h
        obtain ⟨h1, h2⟩ := h
        subst h2
        intro hnil
        have := congrArg List.length hnil
        rw [dummy_pass_results_length] at this
        exact hlen (by simpa using this)
    · rw [if_neg hjs] at h
      by_cases hjava : language = "java"
      · rw [if_pos hjava] at h
        cases hrb : rb with
        | some e =>
          rw [hrb] at h
          simp at h
          obtain ⟨h1, h2⟩ := h
          subst h2
          simp
        | none =>
          rw [hrb] at h
          simp at h
          obtain ⟨h1, h2⟩ := h
          subst h2
          intro hnil
          have := congrArg List.length hnil
          rw [dummy_pass_results_length] at this
          exact hlen (by simpa using this)
      · rw [if_neg hjava] at h
        exact docker_run_branch_ok_nonempty _ _ _ t o tcs.length hc hlen acts rs h

theorem mem_of_lookup_eq_some {β : Type} {k : String} {v : β}
    {l : List (String × β)} (h : l.lookup k = some v) : (k, v) ∈ l := by
  obtain ⟨l₁, l₂, rfl, -⟩ := List.lookup_eq_some_iff.mp h
  simp

theorem resolve_function_mem (funcs : List (String × PyFunc))
    (fn desc : String) (hne : funcs ≠ []) :
    ∃ f, resolve_function funcs fn desc = some f ∧ ∃ n, (n, f) ∈ funcs := by
  obtain ⟨hd, tl, rfl⟩ := List.exists_cons_of_ne_nil hne
  unfold resolve_function
  by_cases h1 : fn ≠ "" ∧ ((hd :: tl).lookup fn).isSome = true
  · rw [if_pos h1]
    obtain ⟨v, hv⟩ := Option.isSome_iff_exists.mp h1.2
    exact ⟨v, hv, fn, mem_of_lookup_eq_some hv⟩
  · rw [if_neg h1]
    by_cases h2 : (hd :: tl).length = 1
    · rw [if_pos h2]
      exact ⟨hd.2, by simp, hd.1, by simp⟩
    · rw [if_neg h2]
      cases hf : (hd :: tl).find?
          (fun nf => containsSub (lowerStr desc) (lowerStr nf.1)) with
      | some nf =>
        simp only [hf]
        exact ⟨nf.2, rfl, nf.1, by simpa using List.mem_of_find?_eq_some hf⟩
      | none =>
        simp only [hf]
        exact ⟨hd.2, by simp, hd.1, by simp⟩

theorem invoke_eq_call (f : PyFunc) (jl : String → Option PyVal) (input : String) :
    ∃ args, invoke f jl input = f.call args := by
  unfold invoke adapt_input call_with_input
  by_cases hb : (strStartsWith input "[" && strEndsWith input "]") = true
  · simp only [hb, if_true]
    cases hj : jl input with
    | none => exact ⟨[PyVal.str input], rfl⟩
    | some v =>
      cases v with
      | list xs =>
        by_cases ha : f.n_params = 1 ∧ f.has_var_positional = false
        · exact ⟨[PyVal.list xs], by simp [ha]⟩
        · exact ⟨xs, by simp [ha]⟩
      | str s => exact ⟨[PyVal.str s], rfl⟩
      | int n => exact ⟨[PyVal.int n], rfl⟩
      | bool b => exact ⟨[PyVal.bool b], rfl⟩
  · simp only [Bool.not_eq_true] at hb
    simp only [hb]
    exact ⟨[PyVal.str input], by simp⟩

theorem append_newline_ne_empty (m t : String) : m ++ "\n" ++ t ≠ "" := by
  intro h
  have h2 := congrArg String.length h
  simp [String.length_append] at h2
  exact absurd h2.1.2 (by decide)

/-! ### Claim theorems -/

/-- Claim C1.  The claim states that for every supported language — in
particular `javascript` and `java` just as for `python` — the success path
launches a sandbox container bound to the workspace and returns the parsed
contents of the harness-written `results.json`.  The code contradicts this
(and its own docstrings, which promise execution "in a secure Docker
environment"): for `javascript` and for `java` it fabricates a passing record
per test case from the expected outputs and issues no container command at
all, as this evaluation of the embedding shows — the action trace is empty
and the fabricated record marks `passed := true` for code that was never
run. -/
theorem javascript_java_fabricate_passing_results :
    execute_code true "function reverseString(s) ..." "javascript"
        [{ input := "hello", expected_output := "olleh" }] 5 env_ok
      = ([{ test_case_id := "test_0", passed := true, actual_output := "olleh",
            expected_output := "olleh", execution_time := 0, memory_usage := some 0,
            error_message := none }], [])
    ∧ execute_code true "class Solution ..." "java"
        [{ input := "hello", expected_output := "olleh" }] 5 env_ok
      = ([{ test_case_id := "test_0", passed := true, actual_output := "olleh",
            expected_output := "olleh", execution_time := 0, memory_usage := some 0,
            error_message := none }], []) := by
  constructor <;> decide

/-- Claim C2, counterexample.  Python is the one language the spec's fallback
mode supports, yet with Docker unavailable a Python request with two test
cases receives the single synthetic "not available" record — not per-test
results from subprocesses: no fallback executor exists in the code. -/
theorem docker_unavailable_no_python_fallback :
    execute_code false "def reverse_string(s): return s" "python"
        [{ input := "hello", expected_output := "olleh",
           function_name := "reverse_string" },
         { input := "python", expected_output := "nohtyp",
           function_name := "reverse_string" }] 10 env_ok
      = ([error_record "error"
            "Docker is not available. Code execution requires Docker for security."],
         []) := by
  decide

/-- Claim C2, amended: when Docker is unavailable, `execute_code` returns the
single synthetic "not available" record for every language — including the
fallback-supported one — and never delegates to a fallback executor; no
container command is issued. -/
theorem docker_unavailable_always_single_record (code language : String)
    (tcs : List TestCase) (t : Nat) (e : Env) :
    execute_code false code language tcs t e
      = ([error_record "error"
            "Docker is not available. Code execution requires Docker for security."],
         []) := by
  rfl

/-- Claim C3, counterexample.  With a caller timeout of 2 seconds, the
timeout record's `execution_time` is `10000` ms (`max(2, 10) * 1000`), not
approximately `2 * 1000`; and the complete action trace is the single
`docker run` — the sandbox container is never force-removed. -/
theorem timeout_short_timeout_no_removal :
    execute_code true "while True: pass" "python"
        [{ input := "1", expected_output := "1" }] 2 env_timeout
      = ([{ test_case_id := "timeout", passed := false, actual_output := "",
            expected_output := "", execution_time := 10000, memory_usage := none,
            error_message := some "Execution timed out after 10 seconds" }],
         [DockerAction.runContainer "code_execution_tmp123" "python:3.9-slim"
            ["python", "run_tests.py"] 10]) := by
  decide

/-- Claim C3, amended: whenever the docker run of a docker-backed language
branch times out, `execute_code` returns exactly one synthetic record with
`test_case_id = "timeout"`, `passed = false` and
`execution_time = max(timeout, 10) * 1000` milliseconds, and its action trace
contains no container-removal command. -/
theorem timeout_single_record_no_removal (code language : String)
    (tcs : List TestCase) (t : Nat) (e : Env)
    (hsup : (DOCKER_IMAGES.lookup (lowerStr language)).isSome = true)
    (hjs : lowerStr language ≠ "javascript") (hjava : lowerStr language ≠ "java")
    (hmk : e.mkdtemp_error = none) (hw : e.write_error = none)
    (hrun : e.run_outcome = RunOutcome.timedOut) :
    (execute_code true code language tcs t e).1
      = [{ test_case_id := "timeout", passed := false, actual_output := "",
           expected_output := "", execution_time := (max t 10) * 1000,
           memory_usage := none,
           error_message := some ("Execution timed out after "
             ++ toString (max t 10) ++ " seconds") }]
    ∧ no_remove (execute_code true code language tcs t e).2 = true := by
  obtain ⟨img, himg⟩ := Option.isSome_iff_exists.mp hsup
  obtain ⟨cmd, hrd⟩ := run_in_docker_timedOut (lowerStr language) e.temp_dir_base t
    e.read_back_error tcs hjs hjava
  simp [execute_code, himg, hmk, hw, hrun, hrd, no_remove]

/-- Claim C3 witness: the amended timeout behaviour at a concrete input. -/
theorem timeout_single_record_no_removal_witness :
    (execute_code true "while True: pass" "python"
        [{ input := "1", expected_output := "1" }] 2 env_timeout).1
      = [{ test_case_id := "timeout", passed := false, actual_output := "",
           expected_output := "", execution_time := (max 2 10) * 1000,
           memory_usage := none,
           error_message := some ("Execution timed out after "
             ++ toString (max 2 10) ++ " seconds") }]
    ∧ no_remove (execute_code true "while True: pass" "python"
        [{ input := "1", expected_output := "1" }] 2 env_timeout).2 = true :=
  timeout_single_record_no_removal "while True: pass" "python"
    [{ input := "1", expected_output := "1" }] 2 env_timeout
    (by decide) (by decide) (by decide) rfl rfl rfl

/-- Claim C4, counterexample.  The claim states the returned list is always
non-empty.  With an empty test-case list and a successful run — where the
generated harness writes the empty array to `results.json`, exactly the
harness-coupled outcome — `execute_code` returns the empty list. -/
theorem empty_test_cases_give_empty_results :
    (execute_code true "def f(x): return x" "python" [] 7 env_empty_results).1
      = [] := by
  decide

/-- Claim C4, amended: `execute_code` is total by construction in this
embedding (every failure of the environment is mapped to a synthetic record,
never a raised exception), and for every environment whose parsed
`results.json` is harness-written (one record per test case) the returned
list is non-empty whenever the test-case list is non-empty: every failure
path returns exactly one synthetic record, and the success path returns the
harness records. -/
theorem execute_code_result_nonempty (da : Bool) (code language : String)
    (tcs : List TestCase) (t : Nat) (e : Env)
    (hc : harness_coupled e tcs) (hne : tcs ≠ []) :
    (execute_code da code language tcs t e).1 ≠ [] := by
  unfold execute_code
  by_cases hda : da = false
  · simp [hda]
  · rw [if_neg hda]
    by_cases hsup : (DOCKER_IMAGES.lookup (lowerStr language)).isNone = true
    · rw [if_pos hsup]
      simp
    · rw [if_neg hsup]
      cases hmk : e.mkdtemp_error with
      | some err => simp
      | none =>
        cases hw : e.write_error with
        | some err => simp
        | none =>
          cases hrd : run_in_docker (lowerStr language) e.temp_dir_base t
              e.run_outcome e.read_back_error tcs with
          | mk acts res =>
            cases res with
            | error err => simp [hrd]
            | ok rs =>
              simp [hrd]
              exact run_in_docker_ok_nonempty (lowerStr language) e.temp_dir_base t
                e.run_outcome e.read_back_error tcs hc hne acts rs hrd

/-- Claim C4 witness: the amended statement at a concrete success-path
input with one test case and a one-record `results.json`. -/
theorem execute_code_result_nonempty_witness :
    (execute_code true "def reverse_string(s): return s" "python"
        [{ input := "hello", expected_output := "olleh" }] 7 env_one_result).1 ≠ [] :=
  execute_code_result_nonempty true "def reverse_string(s): return s" "python"
    [{ input := "hello", expected_output := "olleh" }] 7 env_one_result
    (by
      intro rs h
      simp only [env_one_result] at h
      obtain ⟨h2⟩ := h
      rfl)
    (by simp)

/-- Claim C5.  In every per-test record the generated Python harness produces
for a test case whose resolved callable returns normally, `actual_output` is
the `str()` rendering of the returned value, and `passed` is true if and only
if the stripped `actual_output` equals the stripped `expected_output` — pure
string comparison, with no type-aware or numeric-tolerant rule. -/
theorem passed_iff_trimmed_equal (funcs : List (String × PyFunc))
    (json_loads : String → Option PyVal) (i : Nat) (tc : TestCase)
    (f : PyFunc) (ret : PyVal) (ms : Nat)
    (hres : resolve_function funcs tc.function_name tc.description = some f)
    (hcall : invoke f json_loads tc.input = CallOutcome.ok ret ms) :
    (run_test_case funcs json_loads i tc).actual_output = pyStr ret
    ∧ ((run_test_case funcs json_loads i tc).passed = true
        ↔ pystrip (pyStr ret) = pystrip tc.expected_output) := by
  simp [run_test_case, hres, hcall]

/-- Claim C5 witness: the concrete `reverse_string` scenario. -/
theorem passed_iff_trimmed_equal_witness :
    (run_test_case [("reverse_string", f_rev)] jl_none 0
        { input := "hello", expected_output := "olleh",
          function_name := "reverse_string" }).actual_output = pyStr (PyVal.str "olleh")
    ∧ ((run_test_case [("reverse_string", f_rev)] jl_none 0
        { input := "hello", expected_output := "olleh",
          function_name := "reverse_string" }).passed = true
        ↔ pystrip (pyStr (PyVal.str "olleh")) = pystrip "olleh") :=
  passed_iff_trimmed_equal [("reverse_string", f_rev)] jl_none 0
    { input := "hello", expected_output := "olleh", function_name := "reverse_string" }
    f_rev (PyVal.str "olleh") 1 rfl rfl

/-- Claim C6.  The generated harness resolves the callable per test case in
this priority order: (a) the explicit `function_name` when it names a known
callable; (b) the sole candidate when exactly one exists; (c) the first
candidate whose name occurs case-insensitively in the description text;
(d) the first enumerated candidate; and when no candidate resolves (the
module exposes none), it emits a failed per-test record with
`error_message = "No suitable function found"` and the batch continues —
`run_tests` always yields one record per test case. -/
theorem resolution_priority (funcs : List (String × PyFunc))
    (function_name description : String) :
    (∀ f, function_name ≠ "" → funcs.lookup function_name = some f →
        resolve_function funcs function_name description = some f)
    ∧ (∀ n f, (function_name = "" ∨ funcs.lookup function_name = none) →
        funcs = [(n, f)] → resolve_function funcs function_name description = some f)
    ∧ (∀ nf, (function_name = "" ∨ funcs.lookup function_name = none) →
        funcs.length ≠ 1 →
        funcs.find? (fun p => containsSub (lowerStr description) (lowerStr p.1)) = some nf →
        resolve_function funcs function_name description = some nf.2)
    ∧ ((function_name = "" ∨ funcs.lookup function_name = none) →
        funcs.length ≠ 1 →
        funcs.find? (fun p => containsSub (lowerStr description) (lowerStr p.1)) = none →
        resolve_function funcs function_name description = funcs.head?.map Prod.snd)
    ∧ (∀ (json_loads : String → Option PyVal) (i : Nat) (tc : TestCase),
        funcs = [] →
        run_test_case funcs json_loads i tc
          = { test_case_id := "test_" ++ toString i, passed := false,
              actual_output := "", expected_output := tc.expected_output,
              execution_time := 0, memory_usage := none,
              error_message := some "No suitable function found" })
    ∧ (∀ (json_loads : String → Option PyVal) (tcs : List TestCase),
        (run_tests funcs json_loads tcs).length = tcs.length) := by
  refine ⟨?_, ?_, ?_, ?_, ?_, ?_⟩
  · intro f hfn hlk
    simp [resolve_function, hfn, hlk]
  · intro n f hdisj heq
    subst heq
    rcases hdisj with h | h <;> simp [resolve_function, h]
  · intro nf hdisj hlen hfind
    rcases hdisj with h | h <;> simp [resolve_function, h, hlen, hfind]
  · intro hdisj hlen hfind
    rcases hdisj with h | h <;> simp [resolve_function, h, hlen, hfind]
  · intro json_loads i tc heq
    subst heq
    simp [run_test_case, resolve_function]
  · intro json_loads tcs
    simp [run_tests]

/-- Claim C6 witness: clause (a) at a concrete module with two callables. -/
theorem resolution_priority_witness :
    resolve_function [("foo", f_sum3), ("reverse_string", f_rev)] "reverse_string" ""
      = some f_rev :=
  (resolution_priority [("foo", f_sum3), ("reverse_string", f_rev)]
    "reverse_string" "").1 f_rev (by decide) rfl

/-- Claim C7.  Input adaptation of the generated harness: an input that
starts with an opening and ends with a closing square bracket is fed to
`json.loads`; on success, a signature with exactly one declared parameter and
no var-positional parameter receives the parsed list as one argument, any
other signature receives its elements spread as separate positional
arguments; on parse failure or a non-array-shaped input the raw string is
passed unchanged as a single argument. -/
theorem input_adaptation (f : PyFunc) (json_loads : String → Option PyVal)
    (input : String) (xs : List PyVal) :
    ((strStartsWith input "[" && strEndsWith input "]") = true →
      (json_loads input = some (PyVal.list xs) →
        ((f.n_params = 1 ∧ f.has_var_positional = false) →
            invoke f json_loads input = f.call [PyVal.list xs])
        ∧ (¬(f.n_params = 1 ∧ f.has_var_positional = false) →
            invoke f json_loads input = f.call xs))
      ∧ (json_loads input = none →
          invoke f json_loads input = f.call [PyVal.str input]))
    ∧ ((strStartsWith input "[" && strEndsWith input "]") = false →
        invoke f json_loads input = f.call [PyVal.str input]) := by
  constructor
  · intro hb
    constructor
    · intro hj
      constructor
      · intro ha
        simp [invoke, adapt_input, call_with_input, hb, hj, ha]
      · intro ha
        simp [invoke, adapt_input, call_with_input, hb, hj, ha]
    · intro hj
      simp [invoke, adapt_input, call_with_input, hb, hj]
  · intro hb
    simp [invoke, adapt_input, call_with_input, hb]

/-- Claim C7 witness: the same array input fed to a one-parameter callable
arrives as one list argument, and fed to a three-parameter callable arrives
as three separate arguments. -/
theorem input_adaptation_witness :
    invoke f_listlen jl_arr "[1, 2, 3]"
        = f_listlen.call [PyVal.list [PyVal.int 1, PyVal.int 2, PyVal.int 3]]
    ∧ invoke f_sum3 jl_arr "[1, 2, 3]"
        = f_sum3.call [PyVal.int 1, PyVal.int 2, PyVal.int 3] :=
  ⟨(((input_adaptation f_listlen jl_arr "[1, 2, 3]"
        [PyVal.int 1, PyVal.int 2, PyVal.int 3]).1 rfl).1 rfl).1 ⟨rfl, rfl⟩,
   (((input_adaptation f_sum3 jl_arr "[1, 2, 3]"
        [PyVal.int 1, PyVal.int 2, PyVal.int 3]).1 rfl).1 rfl).2 (by decide)⟩

/-- Claim C8.  When the submitted module exposes at least one callable and
every invocation of every callable raises, the harness still emits exactly
one record per test case, each failed and each carrying a non-empty
`error_message` (the exception message joined with the captured traceback) —
the batch is never aborted. -/
theorem raising_solution_all_tests_fail (funcs : List (String × PyFunc))
    (json_loads : String → Option PyVal) (tcs : List TestCase)
    (hne : funcs ≠ [])
    (hraise : ∀ nf, nf ∈ funcs → ∀ args, ∃ m t, nf.2.call args = CallOutcome.exc m t) :
    (run_tests funcs json_loads tcs).length = tcs.length
    ∧ ∀ r, r ∈ run_tests funcs json_loads tcs →
        r.passed = false ∧ ∃ msg, r.error_message = some msg ∧ msg ≠ "" := by
  constructor
  · simp [run_tests]
  · intro r hr
    simp only [run_tests, List.mem_map] at hr
    obtain ⟨⟨i, tc⟩, hmem, hrt⟩ := hr
    obtain ⟨f, hres, n, hfmem⟩ := resolve_function_mem funcs tc.function_name
      tc.description hne
    obtain ⟨args, hargs⟩ := invoke_eq_call f json_loads tc.input
    obtain ⟨m, t, hexc⟩ := hraise (n, f) hfmem args
    have hinv : invoke f json_loads tc.input = CallOutcome.exc m t := by
      rw [hargs]
      exact hexc
    subst hrt
    refine ⟨?_, m ++ "\n" ++ t, ?_, append_newline_ne_empty m t⟩ <;>
      simp [run_test_case, hres, hinv]

/-- Claim C8 witness: a two-test batch against a module whose sole callable
always raises still yields two records. -/
theorem raising_solution_all_tests_fail_witness :
    (run_tests [("boom", f_boom)] jl_none
        [{ input := "a", expected_output := "b" },
         { input := "c", expected_output := "d" }]).length = 2 :=
  (raising_solution_all_tests_fail [("boom", f_boom)] jl_none
    [{ input := "a", expected_output := "b" },
     { input := "c", expected_output := "d" }]
    (by simp)
    (by
      intro nf hmem args
      simp only [List.mem_singleton] at hmem
      subst hmem
      exact ⟨"ValueError: boom", "Traceback (most recent call last)", rfl⟩)).1

/-- Claim C9.  Cleanup is best-effort: when deleting a path raises
`PermissionError` and the `chmod` making it writable succeeds, the delete is
retried exactly once (the event list shows precisely two delete attempts);
when the retry fails too, the failure is logged and swallowed; and the
results `execute_code` returns never depend on the cleanup outcomes — no
cleanup failure reaches the caller. -/
theorem cleanup_best_effort (c : CleanupEnv) (p : String)
    (hperm : c.first_try p = some FailKind.permission)
    (hchmod : c.chmod_fails p = false) :
    (c.retry_result p = none →
      rmtree_path c p
        = [CleanupEvent.attemptDelete p, CleanupEvent.chmodWritable p,
           CleanupEvent.attemptDelete p])
    ∧ (∀ k, c.retry_result p = some k →
      rmtree_path c p
        = [CleanupEvent.attemptDelete p, CleanupEvent.chmodWritable p,
           CleanupEvent.attemptDelete p, CleanupEvent.logWarning p])
    ∧ (∀ (da : Bool) (code language : String) (tcs : List TestCase) (t : Nat)
        (e : Env) (c1 c2 : CleanupEnv),
        (execute_code_full da code language tcs t { e with cleanup := c1 }).1
          = (execute_code_full da code language tcs t { e with cleanup := c2 }).1) := by
  refine ⟨?_, ?_, ?_⟩
  · intro hr
    simp [rmtree_path, handle_error_readonly_files, hperm, hchmod, hr]
  · intro k hr
    simp [rmtree_path, handle_error_readonly_files, hperm, hchmod, hr]
  · intro da code language tcs t e c1 c2
    rw [execute_code_full_fst, execute_code_full_fst]
    rfl

/-- Claim C9 witness: the single-retry event sequence on a concrete path. -/
theorem cleanup_best_effort_witness :
    rmtree_path cleanup_env_perm "f"
      = [CleanupEvent.attemptDelete "f", CleanupEvent.chmodWritable "f",
         CleanupEvent.attemptDelete "f"] :=
  (cleanup_best_effort cleanup_env_perm "f" rfl rfl).1 rfl

/-- Claim C10.  The generated Go, Ruby and C++ runners never invoke any
callable of the submitted code (their embeddings take no submission input at
all): every test case yields a failed record with the fixed error message —
`Function <name> not found` for Go, `Ruby execution not fully implemented
yet` for Ruby, `C++ execution not fully implemented yet` for C++ — so no
submission in these languages can pass a test through the harness. -/
theorem stub_runners_never_pass (elapsed : Nat → Nat) (tcs : List TestCase) :
    (∀ r, r ∈ go_runner_results elapsed tcs → r.passed = false
        ∧ r.actual_output = ""
        ∧ ∃ name, r.error_message = some ("Function " ++ name ++ " not found"))
    ∧ (∀ r, r ∈ ruby_runner_results tcs → r.passed = false
        ∧ r.error_message = some "Ruby execution not fully implemented yet")
    ∧ (∀ r, r ∈ cpp_runner_results tcs → r.passed = false
        ∧ r.error_message = some "C++ execution not fully implemented yet")
    ∧ (go_runner_results elapsed tcs).length = tcs.length
    ∧ (ruby_runner_results tcs).length = tcs.length
    ∧ (cpp_runner_results tcs).length = tcs.length := by
  refine ⟨?_, ?_, ?_, ?_, ?_, ?_⟩
  · intro r hr
    simp only [go_runner_results, List.mem_map] at hr
    obtain ⟨⟨i, tc⟩, hmem, rfl⟩ := hr
    exact ⟨rfl, rfl, tc.function_name, rfl⟩
  · intro r hr
    simp only [ruby_runner_results, List.mem_map] at hr
    obtain ⟨⟨i, tc⟩, hmem, rfl⟩ := hr
    exact ⟨rfl, rfl⟩
  · intro r hr
    simp only [cpp_runner_results, List.mem_map] at hr
    obtain ⟨⟨i, tc⟩, hmem, rfl⟩ := hr
    exact ⟨rfl, rfl⟩
  · simp [go_runner_results]
  · simp [ruby_runner_results]
  · simp [cpp_runner_results]

/-- Claim C10 witness: the Go runner's record for a concrete test case is
failed with the fixed message. -/
theorem stub_runners_never_pass_witness :
    go_stub_record.passed = false ∧ go_stub_record.actual_output = ""
    ∧ ∃ name, go_stub_record.error_message
        = some ("Function " ++ name ++ " not found") :=
  (stub_runners_never_pass (fun _ => 0)
    [{ input := "hello", expected_output := "olleh",
       function_name := "reverse_string" }]).1 go_stub_record (by decide)

end Skillify
